import Mathlib

/-!
Verification of the mcp-telegram-emoji pack cache and preview pipeline.

Shallow embedding of the TypeScript sources (`src/index.ts`, `src/cache.ts`,
`src/telegram.ts`, `src/types.ts`) of the `mcp-telegram-emoji` server.
Strings are modelled as `List Char` (JS strings at code-point granularity),
binary buffers as `List Nat`, and effectful collaborators (the network, the
`sharp` image library) as explicit oracle parameters.
-/

/-- JS strings, modelled at code-point granularity. -/
abbrev Str := List Char

/-- Binary blobs (Node `Buffer`). -/
abbrev Buffer := List Nat

/-! ## Data model (`src/types.ts`) -/

/-- Record `CachedEmoji` from `src/types.ts`. -/
structure CachedEmoji where
  custom_emoji_id : Str
  emoji : Str
  set_name : Str
  thumbnail_file_id : Option Str := none
deriving DecidableEq

/-- Record `CachedPack` from `src/types.ts`. -/
structure CachedPack where
  name : Str
  title : Str
  emojis : List CachedEmoji
  synced_at : Str
  preview_path : Option Str := none
deriving DecidableEq

/-- Record `EmojiCache` from `src/types.ts`: `packs` is a JS object used as a map,
modelled as an insertion-ordered association list (JS objects preserve
insertion order for string keys, and assignment to an existing key keeps
its position). -/
structure EmojiCache where
  packs : List (Str × CachedPack)
deriving DecidableEq

/-- Thumbnail descriptor inside `TgSticker` (`src/types.ts`). -/
structure TgThumb where
  file_id : Str
  file_unique_id : Str
  width : Nat
  height : Nat
deriving DecidableEq

/-- Record `TgSticker` from `src/types.ts` (subset of the Telegram API type). -/
structure TgSticker where
  file_id : Str
  file_unique_id : Str
  type : Str
  width : Nat
  height : Nat
  emoji : Option Str := none
  custom_emoji_id : Option Str := none
  thumbnail : Option TgThumb := none
deriving DecidableEq

/-- Record `TgStickerSet` from `src/types.ts`. -/
structure TgStickerSet where
  name : Str
  title : Str
  sticker_type : Str
  stickers : List TgSticker
deriving DecidableEq

/-! ## The Pack Store (`src/cache.ts`) -/

/-- Function `stripVariationSelectors` from `src/cache.ts`:
`s.replace(/️/g, "")` removes every U+FE0F (variation selector-16). -/
def stripVariationSelectors (s : Str) : Str :=
  s.filter (fun ch => ch ≠ Char.ofNat 0xFE0F)

/-- The character class removed by JS `String.prototype.trim`
(ECMAScript WhiteSpace ∪ LineTerminator). -/
def jsWhitespaceChar (ch : Char) : Bool :=
  decide (ch ∈ ([Char.ofNat 0x09, Char.ofNat 0x0A, Char.ofNat 0x0B, Char.ofNat 0x0C,
    Char.ofNat 0x0D, Char.ofNat 0x20, Char.ofNat 0xA0, Char.ofNat 0x1680,
    Char.ofNat 0x2000, Char.ofNat 0x2001, Char.ofNat 0x2002, Char.ofNat 0x2003,
    Char.ofNat 0x2004, Char.ofNat 0x2005, Char.ofNat 0x2006, Char.ofNat 0x2007,
    Char.ofNat 0x2008, Char.ofNat 0x2009, Char.ofNat 0x200A, Char.ofNat 0x2028,
    Char.ofNat 0x2029, Char.ofNat 0x202F, Char.ofNat 0x205F, Char.ofNat 0x3000,
    Char.ofNat 0xFEFF] : List Char))

/-- JS `String.prototype.trim`: drop leading and trailing whitespace. -/
def jsTrim (s : Str) : Str :=
  ((s.dropWhile jsWhitespaceChar).reverse.dropWhile jsWhitespaceChar).reverse

/-- JS `String.prototype.toLowerCase`, code point by code point.  `Char.toLower`
lower-cases the ASCII range and is the identity elsewhere; this agrees with JS
on every code point the program manipulates (ASCII pack/emoji ids and emoji
glyphs, which have no case mappings). -/
def toLowerStr (s : Str) : Str :=
  s.map Char.toLower

/-- Method `Cache.getPack`: JS object property lookup `this.data.packs[name]`. -/
def getPackData (c : EmojiCache) (name : Str) : Option CachedPack :=
  (c.packs.find? (fun kv => decide (kv.1 = name))).map Prod.snd

/-- Assignment `this.data.packs[pack.name] = pack` (JS object assignment): replaces the
existing entry in place if the key is present, otherwise appends. -/
def setPackData (c : EmojiCache) (p : CachedPack) : EmojiCache :=
  if c.packs.any (fun kv => decide (kv.1 = p.name)) then
    ⟨c.packs.map (fun kv => if kv.1 = p.name then (p.name, p) else kv)⟩
  else
    ⟨c.packs ++ [(p.name, p)]⟩

/-- Method `Cache.listPacks` from `src/cache.ts`. -/
def listPacksData (c : EmojiCache) : List (Str × Str × Nat) :=
  c.packs.map (fun kv => (kv.2.name, kv.2.title, kv.2.emojis.length))

/-- Method `Cache.allEmojis` from `src/cache.ts`: concatenation across all packs,
pack (insertion) order then in-pack order. -/
def allEmojis (c : EmojiCache) : List CachedEmoji :=
  (c.packs.map Prod.snd).flatMap CachedPack.emojis

/-- The per-emoji match test inside `Cache.searchEmoji`:
`emojiNorm.includes(q) || e.custom_emoji_id.includes(q)`. -/
def searchMatch (q : Str) (e : CachedEmoji) : Bool :=
  decide (q <:+: stripVariationSelectors e.emoji) || decide (q <:+: e.custom_emoji_id)

/-- Method `Cache.searchEmoji` from `src/cache.ts`. -/
def searchEmoji (c : EmojiCache) (query : Str) : List CachedEmoji :=
  if jsTrim query = [] then []
  else
    let q := stripVariationSelectors (jsTrim (toLowerStr query))
    (c.packs.map Prod.snd).flatMap (fun p => p.emojis.filter (searchMatch q))

/-! ### The `Cache` object with its backing file

The backing file is modelled as `Option EmojiCache`: `none` when the file does
not exist, `some doc` for a file holding the JSON document `doc`
(`JSON.parse`/`JSON.stringify` round-trip on this record shape is the
identity, so the document is modelled by the cache value itself). -/

/-- The in-memory cache paired with the persisted document. -/
structure Cache where
  data : EmojiCache
  disk : Option EmojiCache
deriving DecidableEq

/-- The `Cache` constructor: parse the file when it exists, else start empty.
The constructor itself does not write. -/
def Cache.load (disk : Option EmojiCache) : Cache :=
  match disk with
  | some d => ⟨d, some d⟩
  | none => ⟨⟨[]⟩, none⟩

/-- Method `Cache.save`: `writeFileSync` of the whole serialized store. -/
def Cache.save (c : Cache) : Cache :=
  { c with disk := some c.data }

/-- Method `Cache.setPack`: mutate the map, then save synchronously. -/
def Cache.setPack (c : Cache) (p : CachedPack) : Cache :=
  Cache.save { c with data := setPackData c.data p }

/-- Method `Cache.getPack` on the stateful object. -/
def Cache.getPack (c : Cache) (name : Str) : Option CachedPack :=
  getPackData c.data name

/-- The keys of the store map. -/
def cacheKeys (c : EmojiCache) : List Str :=
  c.packs.map Prod.fst

/-! ## The Sprite Composer (`generateSpriteSheet` in `src/index.ts`) -/

def GRID_COLS : Nat := 8
def THUMB_SIZE : Nat := 100
def LABEL_HEIGHT : Nat := 20
def CELL_H : Nat := THUMB_SIZE + LABEL_HEIGHT

/-- One global single-character `String.prototype.replace(/c/g, rep)` pass. -/
def jsReplaceAllChar (c : Char) (rep : Str) (s : Str) : Str :=
  s.flatMap (fun a => if a = c then rep else [a])

/-- Function `escapeXml` from `src/index.ts`: four sequential global replaces
(`&` then `<` then `>` then `"`). -/
def escapeXml (s : Str) : Str :=
  jsReplaceAllChar '"' ("&quot;").toList
    (jsReplaceAllChar '>' ("&gt;").toList
      (jsReplaceAllChar '<' ("&lt;").toList
        (jsReplaceAllChar '&' ("&amp;").toList s)))

/-- Per-character XML escaping: the four significant characters become
entities, every other character is kept. -/
def escChar (a : Char) : Str :=
  if a = '&' then ("&amp;").toList
  else if a = '<' then ("&lt;").toList
  else if a = '>' then ("&gt;").toList
  else if a = '"' then ("&quot;").toList
  else [a]

/-- JS `id.slice(-n)` for `n > 0`: the last `n` code points
(the whole string when it is shorter than `n`). -/
def sliceLast (n : Nat) (s : Str) : Str :=
  s.drop (s.length - n)

/-- The label text for cell `i` (0-based): `` `#${idx} …${shortId}` `` with
`idx = i + 1` and `shortId = emojis[i].custom_emoji_id.slice(-6)`. -/
def labelText (i : Nat) (id : Str) : Str :=
  '#' :: (Nat.repr (i + 1)).data ++ ' ' :: '…' :: sliceLast 6 id

/-- Opening of the label SVG template literal (with `THUMB_SIZE` and
`LABEL_HEIGHT` interpolated, including the literal line breaks). -/
def svgLabelOpen : Str :=
  ("<svg width=\"100\" height=\"20\">\n      <text x=\"2\" y=\"14\" font-size=\"11\" font-family=\"monospace\" fill=\"#666\">").toList

/-- Closing of the label SVG template literal. -/
def svgLabelClose : Str :=
  ("</text>\n    </svg>").toList

/-- The full per-cell label SVG: the template with `escapeXml(label)` embedded. -/
def svgLabel (label : Str) : Str :=
  svgLabelOpen ++ escapeXml label ++ svgLabelClose

/-- One entry of the `composites` array passed to `sharp(...).composite`. -/
inductive OverlayInput where
  | image (data : Buffer)
  | svg (xml : Str)
deriving DecidableEq

/-- An overlay with its `left`/`top` placement. -/
structure Overlay where
  input : OverlayInput
  left : Nat
  top : Nat
deriving DecidableEq

/-- The observable output of `generateSpriteSheet`: canvas geometry, the
ordered overlay list, and the output file name `` `${packName}.png` ``. -/
structure SpriteSheet where
  rows : Nat
  width : Nat
  height : Nat
  composites : List Overlay
  outName : Str
deriving DecidableEq

/-- The loop body of `generateSpriteSheet` for index `i`: the optional
(decoded, resized) thumbnail overlay at the cell origin, then always the
label overlay below the thumbnail region.  `resize` is the
`sharp(buffer).resize(...).png().toBuffer()` oracle; `none` models a decode
failure (the `catch` that skips broken thumbnails). -/
def cellComposites (resize : Buffer → Option Buffer) (i : Nat) (e : CachedEmoji)
    (buf : Option Buffer) : List Overlay :=
  let col := i % GRID_COLS
  let row := i / GRID_COLS
  let x := col * THUMB_SIZE
  let y := row * CELL_H
  let thumbPart : List Overlay :=
    match buf with
    | some b =>
      if 0 < b.length then
        match resize b with
        | some r => [⟨.image r, x, y⟩]
        | none => []
      else []
    | none => []
  thumbPart ++ [⟨.svg (svgLabel (labelText i e.custom_emoji_id)), x, y + THUMB_SIZE⟩]

/-- The `for (let i = 0; ...)` loop of `generateSpriteSheet`, accumulating
`composites`; `i` is the absolute index used for both the grid position and
`thumbnailBuffers[i]`. -/
def spriteComposites (resize : Buffer → Option Buffer) (bufs : List Buffer) :
    Nat → List CachedEmoji → List Overlay
  | _, [] => []
  | i, e :: es => cellComposites resize i e bufs[i]? ++ spriteComposites resize bufs (i + 1) es

/-- Function `generateSpriteSheet` from `src/index.ts` (pure observable part). -/
def generateSpriteSheet (resize : Buffer → Option Buffer) (packName : Str)
    (emojis : List CachedEmoji) (thumbnailBuffers : List Buffer) : SpriteSheet :=
  { rows := (emojis.length + GRID_COLS - 1) / GRID_COLS
    width := GRID_COLS * THUMB_SIZE
    height := ((emojis.length + GRID_COLS - 1) / GRID_COLS) * CELL_H
    composites := spriteComposites resize thumbnailBuffers 0 emojis
    outName := packName ++ (".png").toList }

/-! ## The Placeholder Resolver (`format_message` handler in `src/index.ts`) -/

/-- The two output formats of `format_message`. -/
inductive Fmt where
  | html
  | markdownv2
deriving DecidableEq

/-- The emoji markup emitted by both placeholder passes:
`<tg-emoji emoji-id="ID">FALLBACK</tg-emoji>` for html,
`![FALLBACK](tg://emoji?id=ID)` for markdownv2. -/
def emojiMarkup (fmt : Fmt) (id fallback : Str) : Str :=
  match fmt with
  | .html =>
    ("<tg-emoji emoji-id=\"").toList ++ id ++ ("\">").toList
      ++ fallback ++ ("</tg-emoji>").toList
  | .markdownv2 =>
    ("![").toList ++ fallback ++ ("](tg://emoji?id=").toList ++ id ++ (")").toList

/-- First rewrite pass: `result.replace(/\{(\d+)\}/g, ...)`: every
non-overlapping occurrence of `{<digits>}` (scanned left to right, as the JS
regex engine does) is replaced by markup whose fallback glyph is the matching
cached emoji's glyph, or `❓` when no cached emoji has that id. -/
def idPass (es : List CachedEmoji) (fmt : Fmt) : Str → Str
  | [] => []
  | ch :: rest =>
    if ch = '{' then
      match h : rest.dropWhile Char.isDigit with
      | '}' :: tail =>
        if rest.takeWhile Char.isDigit = [] then
          '{' :: idPass es fmt rest
        else
          emojiMarkup fmt (rest.takeWhile Char.isDigit)
              (((es.find? (fun e =>
                  decide (e.custom_emoji_id = rest.takeWhile Char.isDigit))).map
                CachedEmoji.emoji).getD ['❓'])
            ++ idPass es fmt tail
      | _ => '{' :: idPass es fmt rest
    else ch :: idPass es fmt rest
termination_by s => s.length
decreasing_by
  · simp
  · have hle : (rest.dropWhile Char.isDigit).length ≤ rest.length :=
      (List.dropWhile_suffix Char.isDigit).sublist.length_le
    rw [h] at hle
    simp at hle ⊢
    omega
  · simp
  · simp

/-- Second rewrite pass: `result.replace(/:([^:]+):/g, ...)`: every
non-overlapping occurrence of `:<nonempty run of non-colons>:` is replaced by
markup for the first cached emoji whose variation-selector-stripped glyph
equals the stripped run, and is left unchanged when there is none. -/
def glyphPass (es : List CachedEmoji) (fmt : Fmt) : Str → Str
  | [] => []
  | ch :: rest =>
    if ch = ':' then
      match h : rest.dropWhile (fun a => decide (a ≠ ':')) with
      | ':' :: tail =>
        if rest.takeWhile (fun a => decide (a ≠ ':')) = [] then
          ':' :: glyphPass es fmt rest
        else
          (match es.find? (fun e =>
              decide (stripVariationSelectors e.emoji
                = stripVariationSelectors (rest.takeWhile (fun a => decide (a ≠ ':'))))) with
          | some e => emojiMarkup fmt e.custom_emoji_id e.emoji ++ glyphPass es fmt tail
          | none => ':' :: rest.takeWhile (fun a => decide (a ≠ ':')) ++ ':' :: glyphPass es fmt tail)
      | _ => ':' :: glyphPass es fmt rest
    else ch :: glyphPass es fmt rest
termination_by s => s.length
decreasing_by
  all_goals
    have hle : (rest.dropWhile (fun a => decide (a ≠ ':'))).length ≤ rest.length :=
      (List.dropWhile_suffix (fun a => decide (a ≠ ':'))).sublist.length_le
  all_goals try simp_all
  all_goals omega

/-- The `format_message` tool handler: the id pass, then the glyph pass, both
against `cache.allEmojis()`. -/
def format_message (c : EmojiCache) (fmt : Fmt) (text : Str) : Str :=
  glyphPass (allEmojis c) fmt (idPass (allEmojis c) fmt text)

/-! ## The Asset Fetcher (`syncViaTelegram` in `src/index.ts`)

Network effects are modelled by oracles: `getSet` is the outcome of
`getStickerSet(TOKEN, name)` and `dl` the outcome of
`downloadFile(TOKEN, file_id)` for each file id (a `.error` covers an HTTP
failure, an API failure, or the 30s `AbortController` timeout — in every case
the promise rejects). -/

/-- A failed network call (rejected promise). -/
inductive NetErr where
  | timeout
  | httpErr (status : Nat)
  | apiErr (description : Str)
deriving DecidableEq

/-- The value returned by `syncViaTelegram`. -/
structure SyncResult where
  emojis : List CachedEmoji
  thumbs : List Buffer
  title : Str
deriving DecidableEq

/-- Mapping `set.stickers.map((s) => (...))` inside `syncViaTelegram`: id falls back
from `custom_emoji_id` to `file_unique_id`, glyph falls back to `❓`. -/
def toCachedEmoji (name : Str) (s : TgSticker) : CachedEmoji :=
  { custom_emoji_id := s.custom_emoji_id.getD s.file_unique_id
    emoji := s.emoji.getD ['❓']
    set_name := name
    thumbnail_file_id := s.thumbnail.map TgThumb.file_id }

/-- The settled outcome for one item of the `Promise.allSettled` fan-out:
no thumbnail descriptor resolves to an empty buffer up front; a fulfilled
download keeps its bytes; a rejected download (failure or timeout) is mapped
to `Buffer.alloc(0)`. -/
def thumbOutcome (dl : Str → Except NetErr Buffer) (s : TgSticker) : Buffer :=
  match s.thumbnail with
  | some th =>
    match dl th.file_id with
    | .ok b => b
    | .error _ => []
  | none => []

/-- Function `syncViaTelegram` from `src/index.ts`. -/
def syncViaTelegram (token : Option Str) (getSet : Str → Except NetErr TgStickerSet)
    (dl : Str → Except NetErr Buffer) (name : Str) : Except Str SyncResult :=
  match token with
  | none => .error ("TELEGRAM_BOT_TOKEN not set — required for syncing with real custom_emoji_id and thumbnails").toList
  | some _ =>
    match getSet name with
    | .error .timeout => .error ("fetch aborted").toList
    | .error (.httpErr status) => .error (("Telegram HTTP ").toList ++ (Nat.repr status).data)
    | .error (.apiErr d) => .error (("Telegram API: ").toList ++ d)
    | .ok set =>
      .ok { emojis := set.stickers.map (toCachedEmoji name)
            thumbs := set.stickers.map (thumbOutcome dl)
            title := set.title }

/-! ## The `send_message` tool handler (`src/index.ts`) -/

/-- The parsed JSON of Telegram's `sendMessage` reply. -/
inductive SendResp where
  | okResp (message_id : Nat)
  | errResp (description : Str)
deriving DecidableEq

/-- The result text for an over-long message:
`` `Message too long: ${text.length}/4096 chars` ``. -/
def tooLongText (len : Nat) : Str :=
  ("Message too long: ").toList ++ (Nat.repr len).data ++ ("/4096 chars").toList

/-- The `send_message` handler.  `api` is the outcome of the
`fetch(.../sendMessage)` POST; the returned `Bool` records whether that
outbound call was issued at all. -/
def send_message (token : Option Str) (api : Str → Str → SendResp)
    (chat_id : Str) (text : Str) : Bool × Str :=
  match token with
  | none => (false, ("TELEGRAM_BOT_TOKEN not set").toList)
  | some _ =>
    if 4096 < text.length then
      (false, tooLongText text.length)
    else
      match api chat_id text with
      | .okResp mid => (true, ("✓ Message sent (id: ").toList ++ (Nat.repr mid).data ++ (")").toList)
      | .errResp d => (true, ("Telegram error: ").toList ++ d)

/-- The concrete 17-emoji instance used to witness the grid theorem. -/
def sampleEmoji17 : List CachedEmoji :=
  List.replicate 17
    ({ custom_emoji_id := ("5368324170671202286").toList,
       emoji := ['🔥'],
       set_name := ("p").toList } : CachedEmoji)

/-! ## Store lemmas -/

/-- Replacing the matching entries in place keeps the stored pack findable. -/
theorem find?_map_replace (l : List (Str × CachedPack)) (p : CachedPack)
    (h : l.any (fun kv => decide (kv.1 = p.name)) = true) :
    (l.map (fun kv => if kv.1 = p.name then (p.name, p) else kv)).find?
      (fun kv => decide (kv.1 = p.name)) = some (p.name, p) := by
  induction l with
  | nil => simp at h
  | cons kv l ih =>
    by_cases hkv : kv.1 = p.name
    · simp [List.find?, hkv]
    · have h' : l.any (fun kv => decide (kv.1 = p.name)) = true := by
        rcases List.any_eq_true.mp h with ⟨x, hx, hpx⟩
        rcases List.mem_cons.mp hx with rfl | hx'
        · exact absurd (of_decide_eq_true hpx) hkv
        · exact List.any_eq_true.mpr ⟨x, hx', hpx⟩
      simp [List.find?, hkv, ih h']

/-- Looking up the key just written always yields the freshly stored pack. -/
theorem getPackData_setPackData (c : EmojiCache) (p : CachedPack) :
    getPackData (setPackData c p) p.name = some p := by
  obtain ⟨l⟩ := c
  by_cases hal : l.any (fun kv => decide (kv.1 = p.name)) = true
  · simp [getPackData, setPackData, hal, find?_map_replace l p hal]
  · have hnone : l.find? (fun kv => decide (kv.1 = p.name)) = none := by
      rw [List.find?_eq_none]
      intro kv hkv
      simp only [List.any_eq_true] at hal
      exact fun hc => hal ⟨kv, hkv, hc⟩
    simp [getPackData, setPackData, hal, List.find?_append, hnone, List.find?]

/-- Writing through `setPackData` never introduces a duplicate key. -/
theorem cacheKeys_setPackData_nodup (c : EmojiCache) (p : CachedPack)
    (h : (cacheKeys c).Nodup) : (cacheKeys (setPackData c p)).Nodup := by
  obtain ⟨l⟩ := c
  by_cases hal : l.any (fun kv => decide (kv.1 = p.name)) = true
  · have hkeys : cacheKeys (setPackData ⟨l⟩ p) = cacheKeys ⟨l⟩ := by
      simp only [setPackData, hal, if_true, cacheKeys, List.map_map]
      refine List.map_congr_left ?_
      intro kv _
      by_cases hkv : kv.1 = p.name <;> simp [hkv, Function.comp]
    rw [hkeys]
    exact h
  · have hnm : ∀ kv ∈ l, kv.1 ≠ p.name := by
      intro kv hmem hc
      simp only [List.any_eq_true] at hal
      exact hal ⟨kv, hmem, by simpa using hc⟩
    simp only [setPackData, hal, Bool.false_eq_true, if_false, cacheKeys, List.map_append,
      List.map_cons, List.map_nil]
    rw [List.nodup_append]
    refine ⟨h, List.nodup_singleton (p.name), ?_⟩
    intro a ha
    simp only [List.mem_singleton]
    simp only [cacheKeys, List.mem_map] at ha
    obtain ⟨kv, hkv, rfl⟩ := ha
    exact hnm kv hkv

/-- C2: storing a pack record replaces any existing record under that name in
full (the store keeps at most one record per name), and the whole store
document is persisted synchronously before the put returns; after syncing the
same name twice with different emoji lists, a get of that name returns exactly
the second record, with nothing of the first merged in. -/
theorem setPack_replaces_and_persists (c : Cache) (p1 p2 : CachedPack)
    (hname : p1.name = p2.name) (hnd : (cacheKeys c.data).Nodup) :
    Cache.getPack ((c.setPack p1).setPack p2) p2.name = some p2
    ∧ (cacheKeys ((c.setPack p1).setPack p2).data).Nodup
    ∧ ((c.setPack p1).setPack p2).disk = some ((c.setPack p1).setPack p2).data := by
  refine ⟨?_, ?_, rfl⟩
  · exact getPackData_setPackData _ p2
  · exact cacheKeys_setPackData_nodup _ p2 (cacheKeys_setPackData_nodup _ p1 hnd)

theorem setPack_replaces_and_persists_witness :
    (("a").toList : Str) = (("a").toList : Str)
    ∧ Cache.getPack
        ((Cache.load none).setPack
            { name := ("a").toList, title := ("T1").toList,
              emojis := [{ custom_emoji_id := ("1").toList, emoji := ['🔥'],
                           set_name := ("a").toList }],
              synced_at := ("t1").toList }
          |>.setPack
            { name := ("a").toList, title := ("T2").toList,
              emojis := [{ custom_emoji_id := ("2").toList, emoji := ['🐱'],
                           set_name := ("a").toList }],
              synced_at := ("t2").toList })
        (("a").toList)
      = some
          { name := ("a").toList, title := ("T2").toList,
            emojis := [{ custom_emoji_id := ("2").toList, emoji := ['🐱'],
                         set_name := ("a").toList }],
            synced_at := ("t2").toList } := by
  refine ⟨rfl, ?_⟩
  have h := setPack_replaces_and_persists (Cache.load none)
    { name := ("a").toList, title := ("T1").toList,
      emojis := [{ custom_emoji_id := ("1").toList, emoji := ['🔥'],
                   set_name := ("a").toList }],
      synced_at := ("t1").toList }
    { name := ("a").toList, title := ("T2").toList,
      emojis := [{ custom_emoji_id := ("2").toList, emoji := ['🐱'],
                   set_name := ("a").toList }],
      synced_at := ("t2").toList }
    rfl (by simp [Cache.load, cacheKeys])
  exact h.1

/-- C3: persistence round-trip is the identity on pack records: storing a
pack, persisting, reloading the store from the backing document and reading
the pack back yields the identical pack (emoji sequence order included); and
constructing the store over a non-existent backing file yields an empty
store, not an error. -/
theorem persist_roundtrip (c : Cache) (p : CachedPack) :
    Cache.getPack (Cache.load ((c.setPack p).disk)) p.name = some p
    ∧ Cache.load none = ⟨⟨[]⟩, none⟩ := by
  refine ⟨?_, rfl⟩
  show Cache.getPack (Cache.load (some (setPackData c.data p))) p.name = some p
  show getPackData (setPackData c.data p) p.name = some p
  exact getPackData_setPackData c.data p

/-! ## Search lemmas -/

/-- Filtering inside each pack and concatenating equals filtering the full
concatenation. -/
theorem flatMap_filter_eq_filter_flatMap (L : List CachedPack) (p : CachedEmoji → Bool) :
    L.flatMap (fun pk => pk.emojis.filter p) = (L.flatMap CachedPack.emojis).filter p := by
  induction L with
  | nil => rfl
  | cons pk L ih => simp [List.flatMap_cons, List.filter_append, ih]

/-- C4: `search_emoji` returns exactly the emojis, scanned across all packs in
store order, whose variation-selector-stripped fallback glyph or id has the
normalized query (lower-cased, trimmed, variation selectors stripped) as a
substring; an empty or whitespace-only query returns the empty sequence. -/
theorem searchEmoji_characterization (c : EmojiCache) (q : Str) :
    (jsTrim q = [] → searchEmoji c q = [])
    ∧ (jsTrim q ≠ [] →
        searchEmoji c q
          = (allEmojis c).filter
              (searchMatch (stripVariationSelectors (jsTrim (toLowerStr q))))) := by
  constructor
  · intro h
    simp [searchEmoji, h]
  · intro h
    unfold searchEmoji
    rw [if_neg h]
    exact flatMap_filter_eq_filter_flatMap (c.packs.map Prod.snd) _

theorem searchEmoji_characterization_witness :
    jsTrim ([' ', Char.ofNat 0x09] : Str) = []
    ∧ searchEmoji ⟨[(("a").toList,
        { name := ("a").toList, title := ("A").toList,
          emojis := [{ custom_emoji_id := ("1").toList, emoji := ['🔥'],
                       set_name := ("a").toList }],
          synced_at := ("t").toList })]⟩ [' ', Char.ofNat 0x09] = [] := by
  have h := searchEmoji_characterization ⟨[(("a").toList,
    { name := ("a").toList, title := ("A").toList,
      emojis := [{ custom_emoji_id := ("1").toList, emoji := ['🔥'],
                   set_name := ("a").toList }],
      synced_at := ("t").toList })]⟩ [' ', Char.ofNat 0x09]
  exact ⟨by decide, h.1 (by decide)⟩

/-- C9: for any store state in which an emoji is cached with fallback glyph 🔥
(with or without the U+FE0F emoji-presentation selector), searching for "🔥"
and for "🔥️" returns identical result sequences. -/
theorem searchEmoji_vs16 (c : EmojiCache)
    (h : ∃ e ∈ allEmojis c, stripVariationSelectors e.emoji = ['🔥']) :
    searchEmoji c ['🔥'] = searchEmoji c ['🔥', Char.ofNat 0xFE0F] := by
  unfold searchEmoji
  rw [if_neg (by decide), if_neg (by decide)]
  have hq : stripVariationSelectors (jsTrim (toLowerStr ['🔥']))
      = stripVariationSelectors (jsTrim (toLowerStr ['🔥', Char.ofNat 0xFE0F])) := by decide
  exact congrArg
    (fun q => (c.packs.map Prod.snd).flatMap (fun p => p.emojis.filter (searchMatch q))) hq

theorem searchEmoji_vs16_witness :
    (∃ e ∈ allEmojis ⟨[(("a").toList,
        { name := ("a").toList, title := ("A").toList,
          emojis := [{ custom_emoji_id := ("1").toList,
                       emoji := ['🔥', Char.ofNat 0xFE0F],
                       set_name := ("a").toList }],
          synced_at := ("t").toList })]⟩,
        stripVariationSelectors e.emoji = ['🔥'])
    ∧ searchEmoji ⟨[(("a").toList,
        { name := ("a").toList, title := ("A").toList,
          emojis := [{ custom_emoji_id := ("1").toList,
                       emoji := ['🔥', Char.ofNat 0xFE0F],
                       set_name := ("a").toList }],
          synced_at := ("t").toList })]⟩ ['🔥']
      = searchEmoji ⟨[(("a").toList,
          { name := ("a").toList, title := ("A").toList,
            emojis := [{ custom_emoji_id := ("1").toList,
                         emoji := ['🔥', Char.ofNat 0xFE0F],
                         set_name := ("a").toList }],
            synced_at := ("t").toList })]⟩ ['🔥', Char.ofNat 0xFE0F] := by
  refine ⟨by decide, ?_⟩
  exact searchEmoji_vs16 _ (by decide)

/-! ## Sprite composer lemmas -/

/-- Every overlay of the `i`-th cell ends up in the composite list (with the
absolute index offset by the starting position `j` of the loop). -/
theorem cell_subset_spriteComposites (resize : Buffer → Option Buffer) (bufs : List Buffer) :
    ∀ (es : List CachedEmoji) (j i : Nat) (hi : i < es.length) (o : Overlay),
      o ∈ cellComposites resize (j + i) (es.get ⟨i, hi⟩) bufs[j + i]? →
      o ∈ spriteComposites resize bufs j es := by
  intro es
  induction es with
  | nil => intro j i hi o _; exact absurd hi (by simp)
  | cons e es ih =>
    intro j i hi o ho
    cases i with
    | zero =>
      rw [spriteComposites]
      exact List.mem_append_left _ (by simpa using ho)
    | succ i =>
      rw [spriteComposites]
      refine List.mem_append_right _ ?_
      have hi' : i < es.length := by simpa using hi
      have := ih (j + 1) i hi' o (by
        have harith : j + 1 + i = j + (i + 1) := by omega
        simpa [harith] using ho)
      simpa using this

/-- The label overlay of cell `i` is always present, at
`(i mod 8 * 100, i div 8 * 120 + 100)`. -/
theorem label_mem_spriteComposites (resize : Buffer → Option Buffer) (bufs : List Buffer)
    (es : List CachedEmoji) (i : Nat) (hi : i < es.length) :
    (⟨.svg (svgLabel (labelText i (es.get ⟨i, hi⟩).custom_emoji_id)),
      (i % 8) * 100, (i / 8) * 120 + 100⟩ : Overlay) ∈ spriteComposites resize bufs 0 es := by
  refine cell_subset_spriteComposites resize bufs es 0 i hi _ ?_
  rw [cellComposites.eq_def]
  refine List.mem_append_right _ ?_
  simp [GRID_COLS, THUMB_SIZE, CELL_H, LABEL_HEIGHT, Nat.zero_add]

/-- A decodable, non-empty thumbnail buffer produces an image overlay at the
cell origin `(i mod 8 * 100, i div 8 * 120)`. -/
theorem thumb_mem_spriteComposites (resize : Buffer → Option Buffer) (bufs : List Buffer)
    (es : List CachedEmoji) (i : Nat) (hi : i < es.length) (b r : Buffer)
    (hb : bufs[i]? = some b) (hlen : 0 < b.length) (hr : resize b = some r) :
    (⟨.image r, (i % 8) * 100, (i / 8) * 120⟩ : Overlay) ∈ spriteComposites resize bufs 0 es := by
  refine cell_subset_spriteComposites resize bufs es 0 i hi _ ?_
  rw [cellComposites.eq_def]
  refine List.mem_append_left _ ?_
  simp only [Nat.zero_add, hb, hlen, if_true, hr]
  simp [GRID_COLS, THUMB_SIZE, CELL_H, LABEL_HEIGHT]

/-- C5: the sprite composer produces ceil(n/8) rows on a canvas 800 pixels
wide and rows × 120 pixels tall, and places the emoji at 0-based position `i`
at column `i mod 8`, row `i div 8`, with pixel origin
`(column × 100, row × 120)` (thumbnail overlay at the origin when its buffer
decodes, label overlay 100 pixels below it, always). -/
theorem spriteSheet_grid (resize : Buffer → Option Buffer) (packName : Str)
    (emojis : List CachedEmoji) (bufs : List Buffer) (hn : 1 ≤ emojis.length) :
    (generateSpriteSheet resize packName emojis bufs).rows = (emojis.length + 7) / 8
    ∧ (generateSpriteSheet resize packName emojis bufs).width = 800
    ∧ (generateSpriteSheet resize packName emojis bufs).height
        = (generateSpriteSheet resize packName emojis bufs).rows * 120
    ∧ (∀ (i : Nat) (hi : i < emojis.length),
        (⟨.svg (svgLabel (labelText i (emojis.get ⟨i, hi⟩).custom_emoji_id)),
          (i % 8) * 100, (i / 8) * 120 + 100⟩ : Overlay)
          ∈ (generateSpriteSheet resize packName emojis bufs).composites
        ∧ ∀ b r, bufs[i]? = some b → 0 < b.length → resize b = some r →
            (⟨.image r, (i % 8) * 100, (i / 8) * 120⟩ : Overlay)
              ∈ (generateSpriteSheet resize packName emojis bufs).composites) := by
  refine ⟨by simp [generateSpriteSheet, GRID_COLS], by simp [generateSpriteSheet, GRID_COLS, THUMB_SIZE],
    by simp [generateSpriteSheet, CELL_H, THUMB_SIZE, LABEL_HEIGHT], ?_⟩
  intro i hi
  exact ⟨label_mem_spriteComposites resize bufs emojis i hi,
    fun b r hb hlen hr => thumb_mem_spriteComposites resize bufs emojis i hi b r hb hlen hr⟩

theorem spriteSheet_grid_witness :
    1 ≤ sampleEmoji17.length
    ∧ (generateSpriteSheet (fun _ => none) (("p").toList) sampleEmoji17 []).rows = 3
    ∧ (⟨.svg (svgLabel (labelText 8 (("5368324170671202286").toList))),
        0 * 100, 1 * 120 + 100⟩ : Overlay)
        ∈ (generateSpriteSheet (fun _ => none) (("p").toList) sampleEmoji17 []).composites := by
  have h := spriteSheet_grid (fun _ => none) (("p").toList) sampleEmoji17 []
    (by simp [sampleEmoji17])
  refine ⟨by simp [sampleEmoji17], by simpa [sampleEmoji17] using h.1, ?_⟩
  have hm := (h.2.2.2 8 (by simp [sampleEmoji17])).1
  simpa [sampleEmoji17] using hm

/-- One step of the four-pass escape pipeline: it acts per character. -/
theorem escapeXml_cons (a : Char) (s : Str) :
    escapeXml (a :: s) = escChar a ++ escapeXml s := by
  unfold escapeXml escChar
  by_cases h1 : a = '&'
  · subst h1; simp [jsReplaceAllChar]
  · by_cases h2 : a = '<'
    · subst h2; simp [jsReplaceAllChar]
    · by_cases h3 : a = '>'
      · subst h3; simp [jsReplaceAllChar]
      · by_cases h4 : a = '"'
        · subst h4; simp [jsReplaceAllChar]
        · simp [jsReplaceAllChar, h1, h2, h3, h4]

/-- The sequential-replace implementation of `escapeXml` escapes every
occurrence of the four significant characters, exactly once each. -/
theorem escapeXml_eq_flatMap (s : Str) : escapeXml s = s.flatMap escChar := by
  induction s with
  | nil => rfl
  | cons a s ih => rw [escapeXml_cons, ih, List.flatMap_cons]

/-- C6: for every cell `i`, regardless of whether its thumbnail decoded, a
label overlay is rendered whose text is `#`, the 1-based index `i+1`, a
space, `…`, and the last 6 characters of the emoji id, and whose embedding
into the SVG markup escapes every occurrence of `&`, `<`, `>`, `"`. -/
theorem spriteSheet_label (resize : Buffer → Option Buffer) (packName : Str)
    (emojis : List CachedEmoji) (bufs : List Buffer) (i : Nat) (hi : i < emojis.length) :
    (⟨.svg (svgLabel (labelText i (emojis.get ⟨i, hi⟩).custom_emoji_id)),
      (i % 8) * 100, (i / 8) * 120 + 100⟩ : Overlay)
      ∈ (generateSpriteSheet resize packName emojis bufs).composites
    ∧ (∀ id : Str,
        labelText i id = '#' :: (Nat.repr (i + 1)).data ++ ' ' :: '…' :: sliceLast 6 id)
    ∧ (∀ id : Str, sliceLast 6 id <:+ id ∧ (6 ≤ id.length → (sliceLast 6 id).length = 6))
    ∧ (∀ lab : Str, svgLabel lab = svgLabelOpen ++ lab.flatMap escChar ++ svgLabelClose) := by
  refine ⟨label_mem_spriteComposites resize bufs emojis i hi, fun id => rfl, ?_, ?_⟩
  · intro id
    refine ⟨List.drop_suffix _ _, fun h6 => ?_⟩
    simp [sliceLast]
    omega
  · intro lab
    rw [svgLabel, escapeXml_eq_flatMap]

theorem spriteSheet_label_witness :
    0 < ([({ custom_emoji_id := ("a&b\"<c>").toList, emoji := ['🐱'],
             set_name := ("q").toList } : CachedEmoji)]).length
    ∧ (⟨.svg (svgLabel (labelText 0 (("a&b\"<c>").toList))), 0 * 100, 0 * 120 + 100⟩ : Overlay)
        ∈ (generateSpriteSheet (fun _ => none) (("q").toList)
            [({ custom_emoji_id := ("a&b\"<c>").toList, emoji := ['🐱'],
                set_name := ("q").toList } : CachedEmoji)] []).composites
    ∧ svgLabel (labelText 0 (("a&b\"<c>").toList))
        = svgLabelOpen ++ (labelText 0 (("a&b\"<c>").toList)).flatMap escChar ++ svgLabelClose := by
  have h := spriteSheet_label (fun _ => none) (("q").toList)
    [({ custom_emoji_id := ("a&b\"<c>").toList, emoji := ['🐱'],
        set_name := ("q").toList } : CachedEmoji)] [] 0 (by simp)
  exact ⟨by simp, by simpa using h.1, h.2.2.2 (labelText 0 (("a&b\"<c>").toList))⟩

/-- C7: when the metadata request succeeds, the fetch succeeds regardless of
thumbnail download outcomes; emojis and thumbnail blobs are positionally
aligned with the sticker list (equal lengths, item `i` derived from sticker
`i` only), and any item whose download fails or times out degrades to the
empty blob without affecting its siblings. -/
theorem syncViaTelegram_degrade (tok : Str) (getSet : Str → Except NetErr TgStickerSet)
    (dl : Str → Except NetErr Buffer) (name : Str) (set : TgStickerSet)
    (hset : getSet name = .ok set) :
    ∃ r : SyncResult, syncViaTelegram (some tok) getSet dl name = .ok r
      ∧ r.emojis.length = set.stickers.length
      ∧ r.thumbs.length = set.stickers.length
      ∧ (∀ (i : Nat) (hi : i < set.stickers.length),
          r.emojis[i]? = some (toCachedEmoji name (set.stickers.get ⟨i, hi⟩))
          ∧ r.thumbs[i]? = some (thumbOutcome dl (set.stickers.get ⟨i, hi⟩)))
      ∧ (∀ (i : Nat) (hi : i < set.stickers.length) (th : TgThumb) (err : NetErr),
          (set.stickers.get ⟨i, hi⟩).thumbnail = some th →
          dl th.file_id = .error err →
          r.thumbs[i]? = some ([] : Buffer)) := by
  refine ⟨{ emojis := set.stickers.map (toCachedEmoji name),
            thumbs := set.stickers.map (thumbOutcome dl),
            title := set.title }, ?_, by simp, by simp, ?_, ?_⟩
  · simp [syncViaTelegram, hset]
  · intro i hi
    constructor
    · rw [List.getElem?_map, List.getElem?_eq_getElem hi]
      rfl
    · rw [List.getElem?_map, List.getElem?_eq_getElem hi]
      rfl
  · intro i hi th err hth herr
    rw [List.getElem?_map, List.getElem?_eq_getElem hi]
    show some (thumbOutcome dl (set.stickers.get ⟨i, hi⟩)) = some ([] : Buffer)
    simp only [List.get_eq_getElem] at hth
    simp [thumbOutcome, hth, herr]

theorem syncViaTelegram_degrade_witness :
    ((fun _ => Except.ok
        ({ name := ("p").toList, title := ("P").toList, sticker_type := ("custom_emoji").toList,
           stickers := [{ file_id := ("f1").toList, file_unique_id := ("u1").toList,
                          type := ("custom_emoji").toList, width := 100, height := 100,
                          emoji := some ['🔥'], custom_emoji_id := some (("1").toList),
                          thumbnail := some { file_id := ("tf1").toList,
                                              file_unique_id := ("tu1").toList,
                                              width := 100, height := 100 } }] } : TgStickerSet))
      : Str → Except NetErr TgStickerSet) (("p").toList)
      = Except.ok
        ({ name := ("p").toList, title := ("P").toList, sticker_type := ("custom_emoji").toList,
           stickers := [{ file_id := ("f1").toList, file_unique_id := ("u1").toList,
                          type := ("custom_emoji").toList, width := 100, height := 100,
                          emoji := some ['🔥'], custom_emoji_id := some (("1").toList),
                          thumbnail := some { file_id := ("tf1").toList,
                                              file_unique_id := ("tu1").toList,
                                              width := 100, height := 100 } }] } : TgStickerSet)
    ∧ ∃ r : SyncResult,
        syncViaTelegram (some (("T").toList))
          (fun _ => Except.ok
            ({ name := ("p").toList, title := ("P").toList, sticker_type := ("custom_emoji").toList,
               stickers := [{ file_id := ("f1").toList, file_unique_id := ("u1").toList,
                              type := ("custom_emoji").toList, width := 100, height := 100,
                              emoji := some ['🔥'], custom_emoji_id := some (("1").toList),
                              thumbnail := some { file_id := ("tf1").toList,
                                                  file_unique_id := ("tu1").toList,
                                                  width := 100, height := 100 } }] } : TgStickerSet))
          (fun _ => Except.error NetErr.timeout) (("p").toList) = .ok r
        ∧ r.thumbs = [([] : Buffer)] := by
  refine ⟨rfl, ?_⟩
  obtain ⟨r, hr, -, -, -, -⟩ := syncViaTelegram_degrade (("T").toList)
    (fun _ => Except.ok
      ({ name := ("p").toList, title := ("P").toList, sticker_type := ("custom_emoji").toList,
         stickers := [{ file_id := ("f1").toList, file_unique_id := ("u1").toList,
                        type := ("custom_emoji").toList, width := 100, height := 100,
                        emoji := some ['🔥'], custom_emoji_id := some (("1").toList),
                        thumbnail := some { file_id := ("tf1").toList,
                                            file_unique_id := ("tu1").toList,
                                            width := 100, height := 100 } }] } : TgStickerSet))
    (fun _ => Except.error NetErr.timeout) (("p").toList) _ rfl
  refine ⟨r, hr, ?_⟩
  have hval : syncViaTelegram (some (("T").toList))
      (fun _ => Except.ok
        ({ name := ("p").toList, title := ("P").toList, sticker_type := ("custom_emoji").toList,
           stickers := [{ file_id := ("f1").toList, file_unique_id := ("u1").toList,
                          type := ("custom_emoji").toList, width := 100, height := 100,
                          emoji := some ['🔥'], custom_emoji_id := some (("1").toList),
                          thumbnail := some { file_id := ("tf1").toList,
                                              file_unique_id := ("tu1").toList,
                                              width := 100, height := 100 } }] } : TgStickerSet))
      (fun _ => Except.error NetErr.timeout) (("p").toList)
      = Except.ok
        ({ emojis := [{ custom_emoji_id := ("1").toList, emoji := ['🔥'],
                        set_name := ("p").toList,
                        thumbnail_file_id := some (("tf1").toList) }],
           thumbs := [([] : Buffer)], title := ("P").toList } : SyncResult) := rfl
  rw [hval] at hr
  injection hr with hr'
  rw [← hr']

/-- C8: with credentials configured, any text longer than 4096 characters is
rejected with a too-long error and no outbound call is issued, while a
4096-character text is not rejected for length (the call proceeds); without
credentials, the handler returns an explanatory text (and never throws, the
handler being a total function into result texts). -/
theorem send_message_limits (tok : Str) (api : Str → Str → SendResp)
    (chat_id : Str) (text : Str) :
    (4096 < text.length →
      send_message (some tok) api chat_id text = (false, tooLongText text.length))
    ∧ (text.length = 4096 → (send_message (some tok) api chat_id text).1 = true)
    ∧ (∀ t : Str, send_message none api chat_id t
        = (false, ("TELEGRAM_BOT_TOKEN not set").toList)) := by
  refine ⟨?_, ?_, fun t => rfl⟩
  · intro h
    simp [send_message, h]
  · intro h
    simp only [send_message, h]
    rw [if_neg (by omega)]
    cases api chat_id text <;> rfl

theorem send_message_limits_witness :
    4096 < (List.replicate 4097 'a' : Str).length
    ∧ send_message (some (("T").toList)) (fun _ _ => SendResp.okResp 1) (("c").toList)
        (List.replicate 4097 'a') = (false, tooLongText 4097)
    ∧ (List.replicate 4096 'a' : Str).length = 4096
    ∧ (send_message (some (("T").toList)) (fun _ _ => SendResp.okResp 1) (("c").toList)
        (List.replicate 4096 'a')).1 = true
    ∧ send_message none (fun _ _ => SendResp.okResp 1) (("c").toList) (("hi").toList)
        = (false, ("TELEGRAM_BOT_TOKEN not set").toList) := by
  have h1 := send_message_limits (("T").toList) (fun _ _ => SendResp.okResp 1) (("c").toList)
    (List.replicate 4097 'a')
  have h2 := send_message_limits (("T").toList) (fun _ _ => SendResp.okResp 1) (("c").toList)
    (List.replicate 4096 'a')
  have hl1 : (List.replicate 4097 'a' : Str).length = 4097 := List.length_replicate 4097 'a'
  have hl2 : (List.replicate 4096 'a' : Str).length = 4096 := List.length_replicate 4096 'a'
  refine ⟨by rw [hl1]; omega, ?_, hl2, h2.2.1 hl2, h2.2.2 (("hi").toList)⟩
  have hlong := h1.1 (by rw [hl1]; omega)
  rw [hl1] at hlong
  exact hlong

/-! ## Placeholder resolver lemmas -/

/-- Taking while over a block that satisfies the predicate, stopped by a
sentinel, returns exactly the block. -/
theorem takeWhile_block (p : Char → Bool) (d : Str) (x : Char) (t : Str)
    (hd : ∀ ch ∈ d, p ch = true) (hx : p x = false) :
    (d ++ x :: t).takeWhile p = d := by
  induction d with
  | nil => simp [List.takeWhile, hx]
  | cons a d ih =>
    have ha : p a = true := hd a (List.mem_cons_self a d)
    have hd' : ∀ ch ∈ d, p ch = true := fun ch hch => hd ch (List.mem_cons_of_mem a hch)
    simp [List.takeWhile_cons, ha, ih hd']

/-- Dropping while over a block that satisfies the predicate, stopped by a
sentinel, returns the sentinel and everything after it. -/
theorem dropWhile_block (p : Char → Bool) (d : Str) (x : Char) (t : Str)
    (hd : ∀ ch ∈ d, p ch = true) (hx : p x = false) :
    (d ++ x :: t).dropWhile p = x :: t := by
  induction d with
  | nil => simp [List.dropWhile, hx]
  | cons a d ih =>
    have ha : p a = true := hd a (List.mem_cons_self a d)
    have hd' : ∀ ch ∈ d, p ch = true := fun ch hch => hd ch (List.mem_cons_of_mem a hch)
    simp [List.dropWhile_cons, ha, ih hd']

/-- A text without `{` passes through the id pass unchanged. -/
theorem idPass_no_brace (es : List CachedEmoji) (fmt : Fmt) (s : Str)
    (h : '{' ∉ s) : idPass es fmt s = s := by
  induction s with
  | nil => rw [idPass]
  | cons ch rest ih =>
    have hch : ¬(ch = '{') := fun hc => h (hc ▸ List.mem_cons_self ch rest)
    have hrest : '{' ∉ rest := fun hc => h (List.mem_cons_of_mem ch hc)
    rw [idPass, if_neg hch, ih hrest]

/-- A text without `:` passes through the glyph pass unchanged. -/
theorem glyphPass_no_colon (es : List CachedEmoji) (fmt : Fmt) (s : Str)
    (h : ':' ∉ s) : glyphPass es fmt s = s := by
  induction s with
  | nil => rw [glyphPass]
  | cons ch rest ih =>
    have hch : ¬(ch = ':') := fun hc => h (hc ▸ List.mem_cons_self ch rest)
    have hrest : ':' ∉ rest := fun hc => h (List.mem_cons_of_mem ch hc)
    rw [glyphPass, if_neg hch, ih hrest]

/-- The id pass on a well-formed `{digits}` placeholder: emit markup (cached
glyph, or `❓` when the id is unknown) and continue after the `}`. -/
theorem idPass_placeholder (es : List CachedEmoji) (fmt : Fmt) (d t : Str)
    (hd : d ≠ []) (hdig : ∀ ch ∈ d, ch.isDigit = true) :
    idPass es fmt ('{' :: (d ++ '}' :: t))
      = emojiMarkup fmt d
          (((es.find? (fun e => decide (e.custom_emoji_id = d))).map CachedEmoji.emoji).getD ['❓'])
        ++ idPass es fmt t := by
  have hdrop : (d ++ '}' :: t).dropWhile Char.isDigit = '}' :: t :=
    dropWhile_block _ d '}' t hdig (by decide)
  have htake : (d ++ '}' :: t).takeWhile Char.isDigit = d :=
    takeWhile_block _ d '}' t hdig (by decide)
  rw [idPass, if_pos rfl]
  split
  next tail heq =>
    rw [hdrop] at heq
    injection heq with h1 h2
    subst h2
    rw [htake, if_neg hd]
  next heq =>
    exact (heq t hdrop).elim

/-- The glyph pass on a well-formed `:glyph:` placeholder whose normalized
glyph has a cached match: emit markup for the found emoji and continue. -/
theorem glyphPass_found (es : List CachedEmoji) (fmt : Fmt) (g t : Str) (e : CachedEmoji)
    (hg : g ≠ []) (hgc : ':' ∉ g)
    (hfind : es.find? (fun e =>
        decide (stripVariationSelectors e.emoji = stripVariationSelectors g)) = some e) :
    glyphPass es fmt (':' :: (g ++ ':' :: t))
      = emojiMarkup fmt e.custom_emoji_id e.emoji ++ glyphPass es fmt t := by
  have hp : ∀ ch ∈ g, (fun a => decide (a ≠ ':')) ch = true := by
    intro ch hch
    simp only [decide_eq_true_eq]
    exact fun hc => hgc (hc ▸ hch)
  have hdrop : (g ++ ':' :: t).dropWhile (fun a => decide (a ≠ ':')) = ':' :: t :=
    dropWhile_block _ g ':' t hp (by decide)
  have htake : (g ++ ':' :: t).takeWhile (fun a => decide (a ≠ ':')) = g :=
    takeWhile_block _ g ':' t hp (by decide)
  rw [glyphPass, if_pos rfl]
  split
  next tail heq =>
    rw [hdrop] at heq
    injection heq with h1 h2
    subst h2
    rw [htake, if_neg hg, hfind]
  next heq =>
    exact (heq t hdrop).elim

/-- The glyph pass on a well-formed `:glyph:` placeholder with no cached
match: keep the placeholder text and continue after its closing colon. -/
theorem glyphPass_notfound (es : List CachedEmoji) (fmt : Fmt) (g t : Str)
    (hg : g ≠ []) (hgc : ':' ∉ g)
    (hfind : es.find? (fun e =>
        decide (stripVariationSelectors e.emoji = stripVariationSelectors g)) = none) :
    glyphPass es fmt (':' :: (g ++ ':' :: t))
      = ':' :: g ++ ':' :: glyphPass es fmt t := by
  have hp : ∀ ch ∈ g, (fun a => decide (a ≠ ':')) ch = true := by
    intro ch hch
    simp only [decide_eq_true_eq]
    exact fun hc => hgc (hc ▸ hch)
  have hdrop : (g ++ ':' :: t).dropWhile (fun a => decide (a ≠ ':')) = ':' :: t :=
    dropWhile_block _ g ':' t hp (by decide)
  have htake : (g ++ ':' :: t).takeWhile (fun a => decide (a ≠ ':')) = g :=
    takeWhile_block _ g ':' t hp (by decide)
  rw [glyphPass, if_pos rfl]
  split
  next tail heq =>
    rw [hdrop] at heq
    injection heq with h1 h2
    subst h2
    rw [htake, if_neg hg, hfind]
  next heq =>
    exact (heq t hdrop).elim

/-- A text with exactly one colon has no `:run:` placeholder, so the glyph
pass leaves it unchanged. -/
theorem glyphPass_one_colon (es : List CachedEmoji) (fmt : Fmt) (a b : Str)
    (ha : ':' ∉ a) (hb : ':' ∉ b) :
    glyphPass es fmt (a ++ ':' :: b) = a ++ ':' :: b := by
  induction a with
  | nil =>
    have hdrop : b.dropWhile (fun a => decide (a ≠ ':')) = [] := by
      rw [List.dropWhile_eq_nil_iff]
      intro x hx
      simp only [decide_eq_true_eq]
      exact fun hc => hb (hc ▸ hx)
    simp only [List.nil_append]
    rw [glyphPass, if_pos rfl]
    split
    next tail heq =>
      rw [hdrop] at heq
      exact absurd heq (by simp)
    next heq =>
      rw [glyphPass_no_colon es fmt b hb]
  | cons x a ih =>
    have hx : ¬(x = ':') := fun hc => ha (hc ▸ List.mem_cons_self x a)
    have ha' : ':' ∉ a := fun hc => ha (List.mem_cons_of_mem x hc)
    rw [List.cons_append, glyphPass, if_neg hx, ih ha']

/-- Searching with `List.find?` returns the first element satisfying the predicate. -/
theorem find?_first (p : CachedEmoji → Bool) (pre suf : List CachedEmoji) (e : CachedEmoji)
    (hpre : ∀ x ∈ pre, p x = false) (he : p e = true) :
    (pre ++ e :: suf).find? p = some e := by
  induction pre with
  | nil => simp [List.find?, he]
  | cons x pre ih =>
    have hx : p x = false := hpre x (List.mem_cons_self x pre)
    have hpre' : ∀ y ∈ pre, p y = false := fun y hy => hpre y (List.mem_cons_of_mem x hy)
    simp [List.find?, hx, ih hpre']

/-- A digit is never a colon. -/
theorem isDigit_ne_colon (ch : Char) (h : ch.isDigit = true) : ch ≠ ':' := by
  intro hc
  rw [hc] at h
  exact absurd h (by decide)

/-- The html markup contains no colon when neither the id nor the glyph does. -/
theorem emojiMarkup_html_no_colon (d f : Str) (hd : ':' ∉ d) (hf : ':' ∉ f) :
    ':' ∉ emojiMarkup .html d f := by
  intro hmem
  simp only [emojiMarkup, List.append_assoc, List.mem_append] at hmem
  rcases hmem with h | h | h | h | h
  · exact absurd h (by decide)
  · exact hd h
  · exact absurd h (by decide)
  · exact hf h
  · exact absurd h (by decide)

/-- The markdown markup split around its single colon (the one in `tg://`). -/
theorem emojiMarkup_md_split (d f : Str) :
    emojiMarkup .markdownv2 d f
      = (("![").toList ++ f ++ ("](tg").toList)
        ++ ':' :: (("//emoji?id=").toList ++ d ++ (")").toList) := by
  have hlit : ("](tg://emoji?id=").toList
      = ("](tg").toList ++ ':' :: ("//emoji?id=").toList := by decide
  simp only [emojiMarkup, hlit, List.append_assoc, List.cons_append, List.nil_append]

/-- C1: `format_message` rewrites placeholders in two sequential passes, id
placeholders first, then glyph placeholders, and the two kinds fail
asymmetrically: an id placeholder whose digits match no cached emoji still
becomes tag/link markup carrying that id with the placeholder glyph `❓`,
while a glyph placeholder whose variation-selector-stripped glyph matches no
cached emoji's stripped glyph is left unchanged in the output. -/
theorem format_message_placeholder_asymmetry (c : EmojiCache) (fmt : Fmt) (d g : Str)
    (hd : d ≠ []) (hdig : ∀ ch ∈ d, ch.isDigit = true)
    (hdid : ∀ e ∈ allEmojis c, e.custom_emoji_id ≠ d)
    (hg : g ≠ []) (hgc : ':' ∉ g) (hgb : '{' ∉ g)
    (hgm : ∀ e ∈ allEmojis c,
      stripVariationSelectors e.emoji ≠ stripVariationSelectors g) :
    (∀ text : Str, format_message c fmt text
        = glyphPass (allEmojis c) fmt (idPass (allEmojis c) fmt text))
    ∧ format_message c fmt ('{' :: (d ++ ['}'])) = emojiMarkup fmt d ['❓']
    ∧ format_message c fmt (':' :: (g ++ [':'])) = ':' :: (g ++ [':']) := by
  have hdc : ':' ∉ d := fun hmem => (isDigit_ne_colon ':' (hdig ':' hmem)) rfl
  refine ⟨fun text => rfl, ?_, ?_⟩
  · have hfind : (allEmojis c).find? (fun e => decide (e.custom_emoji_id = d)) = none := by
      rw [List.find?_eq_none]
      intro e he
      simpa using hdid e he
    unfold format_message
    rw [idPass_placeholder (allEmojis c) fmt d [] hd hdig, hfind]
    rw [idPass]
    simp only [Option.map_none, Option.getD_none, List.append_nil]
    cases fmt with
    | html =>
      exact glyphPass_no_colon _ _ _ (emojiMarkup_html_no_colon d ['❓'] hdc (by decide))
    | markdownv2 =>
      rw [emojiMarkup_md_split]
      refine glyphPass_one_colon _ _ _ _ (by decide) ?_
      intro hmem
      rcases List.mem_append.mp hmem with h | h
      · rcases List.mem_append.mp h with h' | h'
        · exact absurd h' (by decide)
        · exact hdc h'
      · exact absurd h (by decide)
  · have hfind : (allEmojis c).find? (fun e =>
        decide (stripVariationSelectors e.emoji = stripVariationSelectors g)) = none := by
      rw [List.find?_eq_none]
      intro e he
      simpa using hgm e he
    have hnb : '{' ∉ ':' :: (g ++ [':']) := by
      intro hmem
      rcases List.mem_cons.mp hmem with h | h
      · exact absurd h (by decide)
      · rcases List.mem_append.mp h with h' | h'
        · exact hgb h'
        · exact absurd h' (by decide)
    unfold format_message
    rw [idPass_no_brace _ _ _ hnb, glyphPass_notfound (allEmojis c) fmt g [] hg hgc hfind]
    rw [glyphPass]
    rfl

theorem format_message_placeholder_asymmetry_witness :
    (("123").toList ≠ ([] : Str))
    ∧ format_message ⟨[]⟩ .html ('{' :: ((("123").toList) ++ ['}']))
        = emojiMarkup .html (("123").toList) ['❓']
    ∧ format_message ⟨[]⟩ .html (':' :: (['🐱'] ++ [':'])) = ':' :: (['🐱'] ++ [':']) := by
  have h := format_message_placeholder_asymmetry ⟨[]⟩ .html (("123").toList) ['🐱']
    (by decide) (by decide) (by simp [allEmojis]) (by decide) (by decide) (by decide)
    (by simp [allEmojis])
  exact ⟨by decide, h.2.1, h.2.2⟩

/-- C10: when a glyph placeholder's stripped glyph matches several cached
emojis, `format_message` substitutes the first match in `allEmojis` order
(store pack order, then in-pack order, `allEmojis` being exactly the
concatenation of the packs' emoji lists); being a pure function of the text
and store state, repeated runs produce identical output. -/
theorem format_message_first_match (c : EmojiCache) (fmt : Fmt) (g : Str)
    (e : CachedEmoji) (pre suf : List CachedEmoji)
    (hsplit : allEmojis c = pre ++ e :: suf)
    (hpre : ∀ x ∈ pre, stripVariationSelectors x.emoji ≠ stripVariationSelectors g)
    (he : stripVariationSelectors e.emoji = stripVariationSelectors g)
    (hg : g ≠ []) (hgc : ':' ∉ g) (hgb : '{' ∉ g) :
    format_message c fmt (':' :: (g ++ [':']))
      = emojiMarkup fmt e.custom_emoji_id e.emoji
    ∧ allEmojis c = (c.packs.map Prod.snd).flatMap CachedPack.emojis := by
  refine ⟨?_, rfl⟩
  have hfind : (allEmojis c).find? (fun x =>
      decide (stripVariationSelectors x.emoji = stripVariationSelectors g)) = some e := by
    rw [hsplit]
    refine find?_first _ pre suf e ?_ (by simpa using he)
    intro x hx
    simpa using hpre x hx
  have hnb : '{' ∉ ':' :: (g ++ [':']) := by
    intro hmem
    rcases List.mem_cons.mp hmem with h | h
    · exact absurd h (by decide)
    · rcases List.mem_append.mp h with h' | h'
      · exact hgb h'
      · exact absurd h' (by decide)
  unfold format_message
  rw [idPass_no_brace _ _ _ hnb, glyphPass_found (allEmojis c) fmt g [] e hg hgc hfind]
  rw [glyphPass, List.append_nil]

theorem format_message_first_match_witness :
    allEmojis ⟨[(("p").toList,
      { name := ("p").toList, title := ("P").toList,
        emojis := [{ custom_emoji_id := ("1").toList, emoji := ['🐱'],
                     set_name := ("p").toList },
                   { custom_emoji_id := ("2").toList, emoji := ['🐱'],
                     set_name := ("p").toList }],
        synced_at := ("t").toList })]⟩
      = [] ++ ({ custom_emoji_id := ("1").toList, emoji := ['🐱'],
                 set_name := ("p").toList } : CachedEmoji)
        :: [{ custom_emoji_id := ("2").toList, emoji := ['🐱'],
              set_name := ("p").toList }]
    ∧ format_message ⟨[(("p").toList,
        { name := ("p").toList, title := ("P").toList,
          emojis := [{ custom_emoji_id := ("1").toList, emoji := ['🐱'],
                       set_name := ("p").toList },
                     { custom_emoji_id := ("2").toList, emoji := ['🐱'],
                       set_name := ("p").toList }],
          synced_at := ("t").toList })]⟩ .html (':' :: (['🐱'] ++ [':']))
      = emojiMarkup .html (("1").toList) ['🐱'] := by
  have h := format_message_first_match ⟨[(("p").toList,
      { name := ("p").toList, title := ("P").toList,
        emojis := [{ custom_emoji_id := ("1").toList, emoji := ['🐱'],
                     set_name := ("p").toList },
                   { custom_emoji_id := ("2").toList, emoji := ['🐱'],
                     set_name := ("p").toList }],
        synced_at := ("t").toList })]⟩ .html ['🐱']
    ({ custom_emoji_id := ("1").toList, emoji := ['🐱'], set_name := ("p").toList })
    [] [{ custom_emoji_id := ("2").toList, emoji := ['🐱'], set_name := ("p").toList }]
    (by decide) (by simp) (by decide) (by decide) (by decide) (by decide)
  exact ⟨by decide, h.1⟩
